import Mathlib

/-!
Verification of the emissions-calculator core of `src/main.py` (the
`calculate_carbon_footprint` function together with its enumerations and
record types).

The Python code is pure arithmetic over rationals apart from one fallible
operation: `1 / input_data.num_residents` raises `ZeroDivisionError` when
`num_residents = 0`.  We therefore embed the calculator as a function into
`Except CalcError CarbonFootprintResult`.  Python `float` inputs are
modelled as `ℚ` and `int` inputs as `ℤ`; every numeric literal of the
source is an exact decimal, so it maps to the corresponding rational.
Python's `round(x, 2)` is modelled as `round2` below, rounding to the
nearest hundredth (tie behaviour at exact half-hundredths is irrelevant to
every statement proved here: no theorem or concrete evaluation below sits
on a tie).

The nested dictionary `vehicle_emission_factors` of the source is a literal
created inside the function body (src/main.py:132), hence rebuilt on every
call; the in-place `*=` update on its electric entry (src/main.py:166)
therefore only ever touches the current call's table.  We model the table
as a constant total map into `Option ℚ` (absent key = `none`) and the
update as a functional override producing the table actually consulted by
the `.get(...).get(..., 0.33)` lookup of src/main.py:168.
-/

/-- Vehicle categories (src/main.py:14). -/
inductive VehicleType where
  | CAR | SUV | MOTORCYCLE | NONE
deriving DecidableEq, Repr

/-- Fuel categories (src/main.py:20). -/
inductive FuelType where
  | GASOLINE | DIESEL | ELECTRIC | HYBRID | NONE
deriving DecidableEq, Repr

/-- Dwelling categories (src/main.py:27). -/
inductive DwellingType where
  | APARTMENT | TOWNHOUSE | HOUSE
deriving DecidableEq, Repr

/-- Heating-source categories (src/main.py:32); accepted but never read by the calculator. -/
inductive HeatingSource where
  | NATURAL_GAS | ELECTRICITY | OIL | PROPANE
deriving DecidableEq, Repr

/-- Diet categories (src/main.py:38). -/
inductive DietType where
  | MEAT_HEAVY | AVERAGE | PESCATARIAN | VEGETARIAN | VEGAN
deriving DecidableEq, Repr

/-- Usage levels for single-use plastic (src/main.py:45). -/
inductive UsageLevel where
  | HIGH | MEDIUM | LOW | NONE
deriving DecidableEq, Repr

/-- Water-usage levels (src/main.py:51). -/
inductive WaterUsageLevel where
  | HIGH | MEDIUM | LOW
deriving DecidableEq, Repr

/-- Income levels (src/main.py:56). -/
inductive IncomeLevel where
  | LOW | MEDIUM | HIGH
deriving DecidableEq, Repr

/-- Regions (src/main.py:61). -/
inductive Location where
  | US | EU | CA | CN | IN | AU | OTHER
deriving DecidableEq, Repr

/-- The input record (src/main.py:71).  `float` fields become `ℚ`, `int`
fields become `ℤ`. -/
structure CarbonFootprintInput where
  vehicle_type : VehicleType
  vehicle_fuel_type : FuelType
  miles_driven_weekly : ℚ
  fuel_efficiency_mpg : ℚ
  public_transit_hours_weekly : ℚ
  flights_short_haul : ℤ
  flights_medium_haul : ℤ
  flights_long_haul : ℤ
  home_size_sqft : ℚ
  dwelling_type : DwellingType
  num_residents : ℤ
  heating_source : HeatingSource
  electricity_kwh_monthly : ℚ
  natural_gas_therms_monthly : ℚ
  fuel_oil_gallons_monthly : ℚ
  renewable_energy_percentage : ℚ
  diet_type : DietType
  local_food_percentage : ℚ
  food_waste_percentage : ℚ
  meals_eaten_out_weekly : ℤ
  new_clothes_items_yearly : ℤ
  new_electronics_items_yearly : ℤ
  recycling_rate : ℚ
  single_use_plastic_level : UsageLevel
  water_consumption_level : WaterUsageLevel
  location : Location
  income_level : IncomeLevel
deriving DecidableEq, Repr

/-- The result record (src/main.py:109). -/
structure CarbonFootprintResult where
  total_carbon_footprint : ℚ
  transport_emissions : ℚ
  home_emissions : ℚ
  food_emissions : ℚ
  consumer_emissions : ℚ
deriving DecidableEq, Repr

/-- The ways a call into the calculator could fail.  The Python body's only
fallible operation is the division `1 / num_residents` (src/main.py:190),
which raises `ZeroDivisionError`; `invalidInput` is the explicit
input-rejection kind the specification's section 7 speaks of, which the
source never produces. -/
inductive CalcError where
  | zeroDivisionError
  | invalidInput
deriving DecidableEq, Repr

/-- Python `round(x, 2)`: round to the nearest hundredth
(src/main.py:297-301). -/
def round2 (x : ℚ) : ℚ := (round (x * 100) : ℤ) / 100

/-- The nested emission-factor dictionary literal of src/main.py:132-151,
as a total map with `none` for absent keys (a missing outer key behaves
like an empty inner dictionary, so only the pair matters). -/
def vehicle_emission_factors : VehicleType → FuelType → Option ℚ
  | .CAR, .GASOLINE => some (33/100)
  | .CAR, .DIESEL => some (31/100)
  | .CAR, .HYBRID => some (19/100)
  | .CAR, .ELECTRIC => some (1/10)
  | .SUV, .GASOLINE => some (44/100)
  | .SUV, .DIESEL => some (42/100)
  | .SUV, .HYBRID => some (29/100)
  | .SUV, .ELECTRIC => some (12/100)
  | .MOTORCYCLE, .GASOLINE => some (18/100)
  | .MOTORCYCLE, .DIESEL => some 0
  | .MOTORCYCLE, .HYBRID => some 0
  | .MOTORCYCLE, .ELECTRIC => some (5/100)
  | _, _ => none

/-- The lookup `electricity_factors.get(location, 1.0)` of src/main.py:154-163: the
region grid-intensity multiplier for electric vehicles, defaulting to 1. -/
def electricity_factors : Location → ℚ
  | .US => 1
  | .EU => 7/10
  | .CA => 1/2
  | .CN => 3/2
  | .IN => 14/10
  | .AU => 12/10
  | .OTHER => 1

/-- The vehicle-factor table after the per-call in-place update of
src/main.py:165-166: when the input's fuel is electric, the electric entry
of the input's vehicle row is multiplied by the region factor; every other
entry is untouched. -/
def adjusted_vehicle_emission_factors (i : CarbonFootprintInput) :
    VehicleType → FuelType → Option ℚ := fun v f =>
  if i.vehicle_fuel_type = .ELECTRIC ∧ v = i.vehicle_type ∧ f = .ELECTRIC then
    (vehicle_emission_factors v f).map (· * electricity_factors i.location)
  else
    vehicle_emission_factors v f

/-- The driving emission factor of src/main.py:168:
`vehicle_emission_factors.get(vehicle_type, {}).get(vehicle_fuel_type, 0.33)`
evaluated on the per-call adjusted table; an absent pair yields 0.33. -/
def emission_factor (i : CarbonFootprintInput) : ℚ :=
  match adjusted_vehicle_emission_factors i i.vehicle_type i.vehicle_fuel_type with
  | some x => x
  | none => 33/100

/-- The transport subtotal accumulated in src/main.py:124-185 (metric tons,
before rounding): driving when a vehicle is present, public transit, and
flights. -/
def transport_emissions (i : CarbonFootprintInput) : ℚ :=
  (if i.vehicle_type ≠ .NONE then
    i.miles_driven_weekly * 52 * emission_factor i / 1000
  else 0)
  + (i.public_transit_hours_weekly * 52 / 100) * (5/100)
  + ((i.flights_short_haul : ℚ) * (15/100) + (i.flights_medium_haul : ℚ) * (4/10)
     + (i.flights_long_haul : ℚ) * (3/2))

/-- The `electricity_emission_factor` lookup of src/main.py:194-201, defaulting
to 0.0004. -/
def electricity_emission_factor : Location → ℚ
  | .US => 4/10000
  | .EU => 3/10000
  | .CA => 15/100000
  | .CN => 7/10000
  | .IN => 8/10000
  | .AU => 7/10000
  | .OTHER => 4/10000

/-- Dwelling-type factor of src/main.py:220-224 (every enum value is a key,
so the `.get` default 1.0 is unreachable). -/
def dwelling_factor : DwellingType → ℚ
  | .APARTMENT => 8/10
  | .TOWNHOUSE => 1
  | .HOUSE => 12/10

/-- The home-energy subtotal of src/main.py:187-226 (before rounding).  The
`1 / num_residents` division (src/main.py:190) is the fallible step; this
definition is only consulted by the calculator after the zero check, and
`(1 : ℚ) / 0 = 0` is unreachable there. -/
def home_emissions (i : CarbonFootprintInput) : ℚ :=
  let electricity_emissions :=
    i.electricity_kwh_monthly * 12 * electricity_emission_factor i.location *
      (1 - i.renewable_energy_percentage / 100)
  let natural_gas_emissions := i.natural_gas_therms_monthly * 12 * (53/10000)
  let fuel_oil_emissions := i.fuel_oil_gallons_monthly * 12 * (1/100)
  let home_size_factor := min (i.home_size_sqft / 1500) 2
  (electricity_emissions + natural_gas_emissions + fuel_oil_emissions) *
    (1 / (i.num_residents : ℚ)) * home_size_factor * dwelling_factor i.dwelling_type

/-- Diet factor lookup of src/main.py:231-239, defaulting to 1.9 (every
enum value is a key, so the default is unreachable). -/
def diet_emission_factors : DietType → ℚ
  | .MEAT_HEAVY => 25/10
  | .AVERAGE => 19/10
  | .PESCATARIAN => 17/10
  | .VEGETARIAN => 14/10
  | .VEGAN => 11/10

/-- The food subtotal of src/main.py:228-250 (before rounding). -/
def food_emissions (i : CarbonFootprintInput) : ℚ :=
  diet_emission_factors i.diet_type *
    (1 - i.local_food_percentage / 100 * (2/10)) *
    (1 + i.food_waste_percentage / 100 * (3/10)) *
    (1 + (i.meals_eaten_out_weekly : ℚ) / 21 * (2/10))

/-- Single-use-plastic flat value of src/main.py:266-272. -/
def plastic_factors : UsageLevel → ℚ
  | .HIGH => 2/10
  | .MEDIUM => 15/100
  | .LOW => 1/10
  | .NONE => 5/100

/-- Water-usage flat value of src/main.py:275-280. -/
def water_factors : WaterUsageLevel → ℚ
  | .HIGH => 3/10
  | .MEDIUM => 2/10
  | .LOW => 1/10

/-- Income factor of src/main.py:283-288. -/
def income_factors : IncomeLevel → ℚ
  | .LOW => 7/10
  | .MEDIUM => 1
  | .HIGH => 15/10

/-- The consumer subtotal of src/main.py:252-290 (before rounding). -/
def consumer_emissions (i : CarbonFootprintInput) : ℚ :=
  ((i.new_clothes_items_yearly : ℚ) * (1/100)
   + (i.new_electronics_items_yearly : ℚ) * (8/100)
   + plastic_factors i.single_use_plastic_level
   + water_factors i.water_consumption_level)
  * (1 - i.recycling_rate / 100 * (15/100))
  * income_factors i.income_level

/-- The calculator `calculate_carbon_footprint` of src/main.py:117-302.
`num_residents = 0` makes the division at src/main.py:190 raise
`ZeroDivisionError`; every other path is total arithmetic, ending in the
five independently rounded output fields. -/
def calculate_carbon_footprint (i : CarbonFootprintInput) :
    Except CalcError CarbonFootprintResult :=
  if i.num_residents = 0 then
    .error .zeroDivisionError
  else
    let t := transport_emissions i
    let h := home_emissions i
    let f := food_emissions i
    let c := consumer_emissions i
    .ok { total_carbon_footprint := round2 (t + h + f + c)
          transport_emissions := round2 t
          home_emissions := round2 h
          food_emissions := round2 f
          consumer_emissions := round2 c }

/-- Sequential-call semantics: the module holds no mutable state consulted
by the calculator (the factor dictionary is a function-local literal,
rebuilt per call, src/main.py:132), so a sequence of calls is the pointwise
application of the single-call function. -/
def calculate_carbon_footprint_seq (l : List CarbonFootprintInput) :
    List (Except CalcError CarbonFootprintResult) :=
  l.map calculate_carbon_footprint

/-! ### Concrete inputs used by witnesses and counterexamples -/

/-- A minimal valid input: no vehicle, no transit, no flights, one resident
in a 1500 sqft townhouse with zero metered usage, average diet, no
purchases, plastic level none, water low, region US, medium income. -/
def baseInput : CarbonFootprintInput where
  vehicle_type := .NONE
  vehicle_fuel_type := .NONE
  miles_driven_weekly := 0
  fuel_efficiency_mpg := 0
  public_transit_hours_weekly := 0
  flights_short_haul := 0
  flights_medium_haul := 0
  flights_long_haul := 0
  home_size_sqft := 1500
  dwelling_type := .TOWNHOUSE
  num_residents := 1
  heating_source := .NATURAL_GAS
  electricity_kwh_monthly := 0
  natural_gas_therms_monthly := 0
  fuel_oil_gallons_monthly := 0
  renewable_energy_percentage := 0
  diet_type := .AVERAGE
  local_food_percentage := 0
  food_waste_percentage := 0
  meals_eaten_out_weekly := 0
  new_clothes_items_yearly := 0
  new_electronics_items_yearly := 0
  recycling_rate := 0
  single_use_plastic_level := .NONE
  water_consumption_level := .LOW
  location := .US
  income_level := .MEDIUM

/-- A valid input whose four subtotals are 0.0051, 0.0051, 1.1051 and
0.1451: each rounds up by 0.0049, while their sum 1.2604 rounds down,
so the rounded total drifts 0.02 below the sum of the rounded parts. -/
def driftInput : CarbonFootprintInput :=
  { baseInput with
      public_transit_hours_weekly := 51/260
      electricity_kwh_monthly := 17/16
      diet_type := .VEGAN
      food_waste_percentage := 17/11
      recycling_rate := 196/9 }

lemma driftInput_eval : calculate_carbon_footprint driftInput = .ok
    { total_carbon_footprint := 126/100, transport_emissions := 1/100,
      home_emissions := 1/100, food_emissions := 111/100,
      consumer_emissions := 15/100 } := by
  norm_num [calculate_carbon_footprint, round2, transport_emissions, emission_factor,
    adjusted_vehicle_emission_factors, vehicle_emission_factors, electricity_factors,
    home_emissions, electricity_emission_factor, dwelling_factor,
    food_emissions, diet_emission_factors,
    consumer_emissions, plastic_factors, water_factors, income_factors,
    driftInput, baseInput]
  norm_num [round_eq]

/-! ### C1: the rounded total versus the sum of the rounded subtotals -/

/-- Independently rounding five quantities lets the rounded total drift
from the sum of the four rounded parts by at most 5 half-hundredths; since
the drift is a whole number of hundredths, it is at most 0.02. -/
lemma round2_sum_drift (t h f c : ℚ) :
    |round2 (t + h + f + c) - (round2 t + round2 h + round2 f + round2 c)| ≤ 1/50 := by
  have hA := abs_le.mp (abs_sub_round ((t + h + f + c) * 100))
  have hT := abs_le.mp (abs_sub_round (t * 100))
  have hH := abs_le.mp (abs_sub_round (h * 100))
  have hF := abs_le.mp (abs_sub_round (f * 100))
  have hC := abs_le.mp (abs_sub_round (c * 100))
  set A := round ((t + h + f + c) * 100) with hAdef
  set T := round (t * 100) with hTdef
  set H := round (h * 100) with hHdef
  set F := round (f * 100) with hFdef
  set C := round (c * 100) with hCdef
  have key : |(A : ℚ) - T - H - F - C| ≤ 5/2 := by
    rw [abs_le]
    obtain ⟨a1, a2⟩ := hA
    obtain ⟨t1, t2⟩ := hT
    obtain ⟨h1, h2⟩ := hH
    obtain ⟨f1, f2⟩ := hF
    obtain ⟨c1, c2⟩ := hC
    constructor <;> nlinarith
  have keyInt : |A - T - H - F - C| ≤ 2 := by
    by_contra hcon
    push_neg at hcon
    have h3 : (3 : ℤ) ≤ |A - T - H - F - C| := hcon
    have h3q : (3 : ℚ) ≤ ((|A - T - H - F - C| : ℤ) : ℚ) := by exact_mod_cast h3
    have hle : ((|A - T - H - F - C| : ℤ) : ℚ) ≤ 5/2 := by
      rw [Int.cast_abs]
      push_cast
      convert key using 2
    linarith
  have heq : round2 (t + h + f + c) - (round2 t + round2 h + round2 f + round2 c)
      = ((A - T - H - F - C : ℤ) : ℚ) / 100 := by
    simp only [round2]
    push_cast
    ring
  rw [heq, abs_div, abs_of_pos (by norm_num : (0:ℚ) < 100)]
  have hcast : |((A - T - H - F - C : ℤ) : ℚ)| ≤ 2 := by
    rw [← Int.cast_abs]
    exact_mod_cast keyInt
  linarith

/-- C1, corrected: at `driftInput` the calculator returns total 1.26 while
the rounded subtotals are 0.01, 0.01, 1.11 and 0.15, which sum to 1.28 —
the claimed 0.01 tolerance is exceeded. -/
theorem c1_counterexample_tolerance_001_fails :
    calculate_carbon_footprint driftInput = .ok
      { total_carbon_footprint := 126/100, transport_emissions := 1/100,
        home_emissions := 1/100, food_emissions := 111/100,
        consumer_emissions := 15/100 } ∧
    ¬ |(126/100 : ℚ) - (1/100 + 1/100 + 111/100 + 15/100)| ≤ 1/100 := by
  refine ⟨driftInput_eval, ?_⟩
  rw [show (126/100 : ℚ) - (1/100 + 1/100 + 111/100 + 15/100) = -(1/50) by norm_num,
    abs_neg, abs_of_nonneg (by norm_num : (0:ℚ) ≤ 1/50)]
  norm_num

/-- C1, amended: every result record the calculator returns satisfies
`total = transport + home + food + consumer` to within 0.02 (each of the
five output values is independently rounded to 2 decimal places, so the
total can drift up to two hundredths from the sum of the parts, and 0.02
is attained). -/
theorem c1_total_matches_sum_within_002 (i : CarbonFootprintInput)
    (r : CarbonFootprintResult) (h : calculate_carbon_footprint i = .ok r) :
    |r.total_carbon_footprint -
      (r.transport_emissions + r.home_emissions + r.food_emissions +
        r.consumer_emissions)| ≤ 1/50 := by
  by_cases h0 : i.num_residents = 0
  · simp [calculate_carbon_footprint, h0] at h
  · simp only [calculate_carbon_footprint, h0, if_false] at h
    injection h with h'
    subst h'
    exact round2_sum_drift _ _ _ _

/-- Witness for the amended C1 at `driftInput`. -/
theorem c1_witness :
    |(126/100 : ℚ) - (1/100 + 1/100 + 111/100 + 15/100)| ≤ 1/50 :=
  c1_total_matches_sum_within_002 driftInput
    { total_carbon_footprint := 126/100, transport_emissions := 1/100,
      home_emissions := 1/100, food_emissions := 111/100,
      consumer_emissions := 15/100 }
    driftInput_eval

/-! ### C2: the transport subtotal formula -/

/-- The base emission-factor table exactly as the specification's section 4
words it: the fixed (vehicle, fuel) table with a missing combination
defaulting to 0.33. -/
def spec_base_factor : VehicleType → FuelType → ℚ
  | .CAR, .GASOLINE => 33/100
  | .CAR, .DIESEL => 31/100
  | .CAR, .HYBRID => 19/100
  | .CAR, .ELECTRIC => 1/10
  | .SUV, .GASOLINE => 44/100
  | .SUV, .DIESEL => 42/100
  | .SUV, .HYBRID => 29/100
  | .SUV, .ELECTRIC => 12/100
  | .MOTORCYCLE, .GASOLINE => 18/100
  | .MOTORCYCLE, .DIESEL => 0
  | .MOTORCYCLE, .HYBRID => 0
  | .MOTORCYCLE, .ELECTRIC => 5/100
  | _, _ => 33/100

/-- The region grid-intensity multiplier as the specification words it:
US=1.0, EU=0.7, CA=0.5, CN=1.5, IN=1.4, AU=1.2, unlisted region 1.0. -/
def spec_grid_multiplier : Location → ℚ
  | .US => 1
  | .EU => 7/10
  | .CA => 1/2
  | .CN => 3/2
  | .IN => 14/10
  | .AU => 12/10
  | .OTHER => 1

/-- The driving factor as the specification words it: the table factor for
the (vehicle, fuel) pair, with the electric base factor scaled by the
region multiplier. -/
def spec_driving_factor (i : CarbonFootprintInput) : ℚ :=
  if i.vehicle_fuel_type = .ELECTRIC then
    spec_base_factor i.vehicle_type .ELECTRIC * spec_grid_multiplier i.location
  else
    spec_base_factor i.vehicle_type i.vehicle_fuel_type

/-- The transport subtotal as the specification's section 4.1 words it:
a driving term (0 when the vehicle category is none, otherwise
`weekly_miles × 52 × factor / 1000`), a transit term
`(weekly hours × 52 / 100) × 0.05`, and a flight term
`short × 0.15 + medium × 0.4 + long × 1.5`. -/
def spec_transport_subtotal (i : CarbonFootprintInput) : ℚ :=
  (if i.vehicle_type = .NONE then 0 else
    i.miles_driven_weekly * 52 * spec_driving_factor i / 1000)
  + (i.public_transit_hours_weekly * 52 / 100) * (5/100)
  + ((i.flights_short_haul : ℚ) * (15/100) + (i.flights_medium_haul : ℚ) * (4/10)
     + (i.flights_long_haul : ℚ) * (3/2))

lemma grid_multiplier_eq (l : Location) :
    spec_grid_multiplier l = electricity_factors l := by
  cases l <;> rfl

/-- With a vehicle present, the factor the code looks up on its per-call
adjusted table is exactly the specification's driving factor. -/
lemma emission_factor_eq_spec (i : CarbonFootprintInput)
    (hv : i.vehicle_type ≠ .NONE) :
    emission_factor i = spec_driving_factor i := by
  obtain ⟨vt, ft, _, _, _, _, _, _, _, _, _, _, _, _, _, _, _, _, _, _, _, _, _, _, _,
    loc, _⟩ := i
  cases vt <;> cases ft <;>
    simp_all [emission_factor, adjusted_vehicle_emission_factors,
      vehicle_emission_factors, spec_driving_factor, spec_base_factor,
      grid_multiplier_eq]

/-- C2: for every input the unrounded transport subtotal equals the
specification's driving + transit + flight formula; and in particular an
input with vehicle=car, fuel=gasoline, 100 miles/week and region=US
contributes 100×52×0.33/1000 = 1.716 metric tons from driving alone,
before transit and flights. -/
theorem c2_transport_subtotal_formula :
    (∀ i : CarbonFootprintInput, transport_emissions i = spec_transport_subtotal i) ∧
    (∀ i : CarbonFootprintInput,
      i.vehicle_type = .CAR → i.vehicle_fuel_type = .GASOLINE →
      i.miles_driven_weekly = 100 → i.location = .US →
      transport_emissions i = 1716/1000
        + (i.public_transit_hours_weekly * 52 / 100) * (5/100)
        + ((i.flights_short_haul : ℚ) * (15/100)
           + (i.flights_medium_haul : ℚ) * (4/10)
           + (i.flights_long_haul : ℚ) * (3/2))) := by
  have hmain : ∀ i : CarbonFootprintInput,
      transport_emissions i = spec_transport_subtotal i := by
    intro i
    by_cases hv : i.vehicle_type = .NONE
    · simp [transport_emissions, spec_transport_subtotal, hv]
    · simp [transport_emissions, spec_transport_subtotal, hv,
        emission_factor_eq_spec i hv]
  refine ⟨hmain, fun i h1 h2 h3 h4 => ?_⟩
  rw [hmain i]
  simp [spec_transport_subtotal, spec_driving_factor, spec_base_factor, h1, h2, h3, h4]
  norm_num

/-- A car driven 100 miles a week on gasoline in the US, with no transit
and no flights. -/
def exampleDrivingInput : CarbonFootprintInput :=
  { baseInput with
      vehicle_type := .CAR
      vehicle_fuel_type := .GASOLINE
      miles_driven_weekly := 100 }

/-- Witness for C2 at `exampleDrivingInput`: the transport subtotal is
exactly the 1.716 driving contribution. -/
theorem c2_witness : transport_emissions exampleDrivingInput = 1716/1000 := by
  have h := c2_transport_subtotal_formula.2 exampleDrivingInput rfl rfl rfl rfl
  simpa [exampleDrivingInput, baseInput] using h

/-! ### C3: totality on valid inputs -/

/-- C3: for every input with at least one resident the calculator returns
a result record (the embedding is a pure function, so this is also the
no-side-effects half of the contract). -/
theorem c3_total_on_valid_inputs (i : CarbonFootprintInput)
    (h : 1 ≤ i.num_residents) : (calculate_carbon_footprint i).isOk = true := by
  unfold calculate_carbon_footprint
  rw [if_neg (by omega)]
  rfl

/-- Witness for C3 at `baseInput`. -/
theorem c3_witness : (calculate_carbon_footprint baseInput).isOk = true :=
  c3_total_on_valid_inputs baseInput (by norm_num [baseInput])

/-! ### C4: behaviour at zero residents -/

/-- The base input with its resident count set to zero. -/
def zeroResidentsInput : CarbonFootprintInput :=
  { baseInput with num_residents := 0 }

/-- C4, counterexample: at zero residents the calculator fails with the
division-by-zero error of src/main.py:190, not with an invalid-input
rejection. -/
theorem c4_counterexample_error_kind :
    calculate_carbon_footprint zeroResidentsInput = .error .zeroDivisionError ∧
    calculate_carbon_footprint zeroResidentsInput ≠ .error .invalidInput := by
  constructor <;> simp [calculate_carbon_footprint, zeroResidentsInput, baseInput]

/-- C4, amended: an input with `num_residents = 0` that reaches the
calculator makes the call fail with an uncaught division-by-zero error —
so no infinite or undefined result is returned, but the failure kind is
`ZeroDivisionError`, not an "invalid input" rejection. -/
theorem c4_zero_residents_raises (i : CarbonFootprintInput)
    (h : i.num_residents = 0) :
    calculate_carbon_footprint i = .error .zeroDivisionError := by
  simp [calculate_carbon_footprint, h]

/-- Witness for the amended C4 at `zeroResidentsInput`. -/
theorem c4_witness :
    calculate_carbon_footprint zeroResidentsInput = .error .zeroDivisionError :=
  c4_zero_residents_raises zeroResidentsInput rfl

/-! ### C5: the recycling-rate effect on the consumer subtotal -/

/-- C5: for any input, the unrounded consumer subtotal at recycling rate
100 is exactly 0.85 times the subtotal at rate 0, all other fields
fixed. -/
theorem c5_recycling_reduces_15_percent (i : CarbonFootprintInput) :
    consumer_emissions { i with recycling_rate := 100 }
      = (85/100) * consumer_emissions { i with recycling_rate := 0 } := by
  obtain ⟨_, _, _, _, _, _, _, _, _, _, _, _, _, _, _, _, _, _, _, _, _, _, _, _, _, _, _⟩ := i
  simp only [consumer_emissions]
  ring

/-! ### C6: CN versus CA with an electric vehicle -/

/-- The base input with an electric car and zero weekly miles. -/
def evZeroMilesInput : CarbonFootprintInput :=
  { baseInput with vehicle_type := .CAR, vehicle_fuel_type := .ELECTRIC }

/-- C6, counterexample: with an electric car but zero weekly miles, the
transport subtotals for region CN and region CA are equal, so the strict
inequality claimed for every valid input fails. -/
theorem c6_counterexample_zero_miles :
    ¬ transport_emissions { evZeroMilesInput with location := .CN }
      > transport_emissions { evZeroMilesInput with location := .CA } := by
  norm_num [transport_emissions, emission_factor, adjusted_vehicle_emission_factors,
    vehicle_emission_factors, electricity_factors, evZeroMilesInput, baseInput]

/-- C6, amended: for every input with an electric vehicle and strictly
positive weekly miles, region CN yields a strictly higher transport
subtotal than region CA, all other fields fixed (with zero miles the two
subtotals coincide). -/
theorem c6_cn_exceeds_ca_for_ev (i : CarbonFootprintInput)
    (hm : 0 < i.miles_driven_weekly) (hv : i.vehicle_type ≠ .NONE)
    (hf : i.vehicle_fuel_type = .ELECTRIC) :
    transport_emissions { i with location := .CN }
      > transport_emissions { i with location := .CA } := by
  obtain ⟨vt, ft, mi, _, _, _, _, _, _, _, _, _, _, _, _, _, _, _, _, _, _, _, _, _, _, _, _⟩ := i
  simp only at hm hv hf
  subst hf
  cases vt
  case NONE => exact absurd rfl hv
  all_goals
    simp [transport_emissions, emission_factor,
      adjusted_vehicle_emission_factors, vehicle_emission_factors,
      electricity_factors]
    linarith

/-- An electric car driven 100 miles a week. -/
def evInput : CarbonFootprintInput :=
  { baseInput with
      vehicle_type := .CAR
      vehicle_fuel_type := .ELECTRIC
      miles_driven_weekly := 100 }

/-- Witness for the amended C6 at `evInput`. -/
theorem c6_witness :
    transport_emissions { evInput with location := .CN }
      > transport_emissions { evInput with location := .CA } :=
  c6_cn_exceeds_ca_for_ev evInput (by norm_num [evInput, baseInput])
    (by simp [evInput, baseInput]) rfl

/-! ### C7: independence of calls -/

/-- C7: the factor table the calculator consults is a per-call value (the
source builds the dictionary literal inside the function body,
src/main.py:132, so its in-place electric adjustment at src/main.py:166
dies with the call); consequently, after any sequence of earlier calls —
electric-fuel calls included — the result of the next call equals the
result of calling the function first, so calls are independent. -/
theorem c7_calls_independent (prior : List CarbonFootprintInput)
    (i : CarbonFootprintInput) :
    (calculate_carbon_footprint_seq (prior ++ [i])).getLast?
      = some (calculate_carbon_footprint i) := by
  simp [calculate_carbon_footprint_seq]

/-! ### C8: missing (vehicle, fuel) pairs default to 0.33 -/

/-- Whether a (vehicle, fuel) pair is an entry of the fixed
emission-factor table of src/main.py:132-151. -/
def tableHas (v : VehicleType) (f : FuelType) : Bool :=
  (vehicle_emission_factors v f).isSome

/-- C8: for any input with at least one resident whose (vehicle, fuel)
pair is not an entry of the fixed table — e.g. any fuel category `none` —
the driving emission factor resolved by the lookup is the default 0.33,
and the call succeeds. -/
theorem c8_missing_pair_defaults (i : CarbonFootprintInput)
    (hres : 1 ≤ i.num_residents)
    (h : tableHas i.vehicle_type i.vehicle_fuel_type = false) :
    emission_factor i = 33/100 ∧ (calculate_carbon_footprint i).isOk = true := by
  have hnone : vehicle_emission_factors i.vehicle_type i.vehicle_fuel_type = none := by
    revert h
    unfold tableHas
    cases vehicle_emission_factors i.vehicle_type i.vehicle_fuel_type <;> simp
  constructor
  · by_cases he : i.vehicle_fuel_type = .ELECTRIC
    · rw [he] at hnone
      simp [emission_factor, adjusted_vehicle_emission_factors, he, hnone]
    · simp [emission_factor, adjusted_vehicle_emission_factors, he, hnone]
  · unfold calculate_carbon_footprint
    rw [if_neg (by omega)]
    rfl

/-- A car with fuel category `none` — a pair absent from the fixed table. -/
def carNoFuelInput : CarbonFootprintInput :=
  { baseInput with vehicle_type := .CAR }

/-- Witness for C8 at `carNoFuelInput`. -/
theorem c8_witness :
    emission_factor carNoFuelInput = 33/100 ∧
      (calculate_carbon_footprint carNoFuelInput).isOk = true :=
  c8_missing_pair_defaults carNoFuelInput (by norm_num [carNoFuelInput, baseInput]) rfl

/-! ### C9: inert input fields -/

/-- C9: the calculator never reads `fuel_efficiency_mpg` or
`heating_source`; changing them (and nothing else) leaves the result
record identical. -/
theorem c9_inert_fields (i : CarbonFootprintInput) (v : ℚ) (hs : HeatingSource) :
    calculate_carbon_footprint
        { i with fuel_efficiency_mpg := v, heating_source := hs }
      = calculate_carbon_footprint i := by
  cases i
  rfl

/-! ### C10: with no vehicle, miles and fuel type are irrelevant -/

/-- C10: when the vehicle category is `none`, the driving branch is
skipped, so `miles_driven_weekly` and `vehicle_fuel_type` have no effect
on the result record. -/
theorem c10_no_vehicle_inert (i : CarbonFootprintInput) (m : ℚ) (f : FuelType)
    (hv : i.vehicle_type = .NONE) :
    calculate_carbon_footprint
        { i with miles_driven_weekly := m, vehicle_fuel_type := f }
      = calculate_carbon_footprint i := by
  obtain ⟨vt, _, _, _, _, _, _, _, _, _, _, _, _, _, _, _, _, _, _, _, _, _, _, _, _, _, _⟩ := i
  simp only at hv
  subst hv
  rfl

/-- Witness for C10 at `baseInput` (vehicle category `none`), overriding
the weekly miles with 5 and the fuel type with gasoline. -/
theorem c10_witness :
    calculate_carbon_footprint
        { baseInput with miles_driven_weekly := 5, vehicle_fuel_type := .GASOLINE }
      = calculate_carbon_footprint baseInput :=
  c10_no_vehicle_inert baseInput 5 .GASOLINE rfl
